import Mathlib

/-!
Shallow embedding of the moss-api plugin SDK (TypeScript) and its mock
command bridge, with proofs of the specification's testable properties.

Conventions of the embedding:
* JavaScript `Map<string, V>` is modelled by an association list `SMap V`
  whose `get?`/`set`/`has` follow `Map.get`/`Map.set`/`Map.has`.
* A function that can `throw` is modelled as `Except String _`; the string
  is the thrown error message.
* The ambient globals (`window.__MOSS_INTERNAL_CONTEXT__`,
  `window.__TAURI__.core`) are passed as explicit `Option` parameters.
* `Date.now` style timestamps are explicit `Nat` clock parameters.
* JavaScript `x || d` on strings (empty string falls through to the
  default) is `jsOrString`; `x || null` is `jsOrNullString`.
-/

namespace Moss

/-- Association-list model of a JavaScript `Map<string, α>`. -/
abbrev SMap (α : Type) : Type := List (String × α)

/-- Embeds `Map.get`: the value stored under `key`, if present. -/
def SMap.get? {α : Type} : SMap α → String → Option α
  | [], _ => none
  | (k, v) :: rest, key => if k = key then some v else SMap.get? rest key

/-- Embeds `Map.set`: update in place if the key exists, otherwise append. -/
def SMap.set {α : Type} : SMap α → String → α → SMap α
  | [], key, val => [(key, val)]
  | (k, v) :: rest, key, val =>
      if k = key then (k, val) :: rest else (k, v) :: SMap.set rest key val

/-- Embeds `Map.has`. -/
def SMap.has {α : Type} (m : SMap α) (key : String) : Bool :=
  (m.get? key).isSome

theorem SMap.get?_set_self {α : Type} (m : SMap α) (k : String) (v : α) :
    (m.set k v).get? k = some v := by
  induction m with
  | nil => simp [SMap.set, SMap.get?]
  | cons hd tl ih =>
      by_cases h : hd.1 = k <;> simp [SMap.set, SMap.get?, h, ih]

theorem SMap.get?_set_ne {α : Type} (m : SMap α) (k k' : String) (v : α)
    (h : k ≠ k') : (m.set k v).get? k' = m.get? k' := by
  induction m with
  | nil => simp [SMap.set, SMap.get?, h]
  | cons hd tl ih =>
      by_cases hh : hd.1 = k <;> simp [SMap.set, SMap.get?, hh, ih]
      · subst hh; simp [h]

/-- Model of JavaScript string `x || d` (empty string is falsy). -/
def jsOrString (x : Option String) (d : String) : String :=
  match x with
  | some v => if v = "" then d else v
  | none => d

/-- Model of JavaScript `String.prototype.trim`: strip whitespace from
both ends. -/
def jsTrim (s : String) : String :=
  ⟨((s.data.dropWhile Char.isWhitespace).reverse.dropWhile
      Char.isWhitespace).reverse⟩

/-- Model of JavaScript `x || null` on an optional string field. -/
def jsOrNullString (x : Option String) : Option String :=
  match x with
  | some v => if v = "" then none else some v
  | none => none

/-! ### Context accessor (src/utils/context.ts) -/

/-- Internal plugin execution context, set by the runtime before each hook. -/
structure InternalPluginContext where
  plugin_name : String
  project_path : String
  moss_dir : String
  deriving Repr, DecidableEq

/-- The error message thrown when a wrapper runs outside a plugin hook. -/
def contextErrorMessage : String :=
  "This function must be called from within a plugin hook. " ++
    "Ensure you\x27re calling this from process(), generate(), deploy(), or syndicate()."

/-- Embeds `getInternalContext`: read the global context, throwing when unset. -/
def getInternalContext (octx : Option InternalPluginContext) :
    Except String InternalPluginContext :=
  match octx with
  | none => .error contextErrorMessage
  | some c => .ok c

/-- Embeds `hasContext`: whether the global context is currently set. -/
def hasContext (octx : Option InternalPluginContext) : Bool :=
  octx.isSome

/-! ### Command bridge accessor (src/utils/tauri.ts) -/

/-- A cookie record. -/
structure Cookie where
  name : String
  value : String
  domain : Option String
  path : Option String
  deriving Repr, DecidableEq

/-- Host wire shape of an `execute_binary` result (snake_case fields). -/
structure TauriBinaryResult where
  success : Bool
  exit_code : Int
  stdout : String
  stderr : String
  deriving Repr, DecidableEq

/-- The host's command surface as seen through `invoke`, one typed handler
per command name used by the wrappers. -/
structure TauriCore where
  read_project_file : String → String → Except String String
  write_project_file : String → String → String → Except String Unit
  list_project_files : String → Except String (List String)
  read_plugin_file : String → String → String → Except String String
  write_plugin_file : String → String → String → String → Except String Unit
  list_plugin_files : String → String → Except String (List String)
  plugin_file_exists : String → String → String → Except String Bool
  execute_binary : String → List String → String → Nat →
    Option (List (String × String)) → Except String TauriBinaryResult
  get_plugin_cookie : String → String → Except String (List Cookie)
  set_plugin_cookie : String → String → List Cookie → Except String Unit

/-- Embeds `getTauriCore`: resolve the bridge, throwing when it is absent. -/
def getTauriCore (bridge : Option TauriCore) : Except String TauriCore :=
  match bridge with
  | none => .error "Tauri core not available"
  | some c => .ok c

/-- Embeds `isTauriAvailable`. -/
def isTauriAvailable (bridge : Option TauriCore) : Bool :=
  bridge.isSome

/-! ### Filesystem wrappers (src/utils/filesystem.ts) -/

/-- Embeds `readFile`: read a project file relative to the auto-detected root. -/
def readFile (octx : Option InternalPluginContext) (bridge : Option TauriCore)
    (relativePath : String) : Except String String := do
  let ctx ← getInternalContext octx
  let core ← getTauriCore bridge
  core.read_project_file ctx.project_path relativePath

/-- Embeds `writeFile`: write a project file relative to the auto-detected root. -/
def writeFile (octx : Option InternalPluginContext) (bridge : Option TauriCore)
    (relativePath : String) (content : String) : Except String Unit := do
  let ctx ← getInternalContext octx
  let core ← getTauriCore bridge
  core.write_project_file ctx.project_path relativePath content

/-- Embeds `listFiles`: list project files. -/
def listFiles (octx : Option InternalPluginContext) (bridge : Option TauriCore) :
    Except String (List String) := do
  let ctx ← getInternalContext octx
  let core ← getTauriCore bridge
  core.list_project_files ctx.project_path

/-- Embeds `fileExists`: context check, then a speculative `readFile` whose failure
is swallowed and reported as `false`. -/
def fileExists (octx : Option InternalPluginContext) (bridge : Option TauriCore)
    (relativePath : String) : Except String Bool := do
  let _ ← getInternalContext octx
  match readFile octx bridge relativePath with
  | .ok _ => .ok true
  | .error _ => .ok false

/-! ### Plugin-storage wrappers (src/utils/plugin-storage.ts) -/

/-- Embeds `readPluginFile`. -/
def readPluginFile (octx : Option InternalPluginContext)
    (bridge : Option TauriCore) (relativePath : String) : Except String String := do
  let ctx ← getInternalContext octx
  let core ← getTauriCore bridge
  core.read_plugin_file ctx.plugin_name ctx.project_path relativePath

/-- Embeds `writePluginFile`. -/
def writePluginFile (octx : Option InternalPluginContext)
    (bridge : Option TauriCore) (relativePath : String) (content : String) :
    Except String Unit := do
  let ctx ← getInternalContext octx
  let core ← getTauriCore bridge
  core.write_plugin_file ctx.plugin_name ctx.project_path relativePath content

/-- Embeds `listPluginFiles`. -/
def listPluginFiles (octx : Option InternalPluginContext)
    (bridge : Option TauriCore) : Except String (List String) := do
  let ctx ← getInternalContext octx
  let core ← getTauriCore bridge
  core.list_plugin_files ctx.plugin_name ctx.project_path

/-- Embeds `pluginFileExists`: delegated to the host's `plugin_file_exists` command. -/
def pluginFileExists (octx : Option InternalPluginContext)
    (bridge : Option TauriCore) (relativePath : String) : Except String Bool := do
  let ctx ← getInternalContext octx
  let core ← getTauriCore bridge
  core.plugin_file_exists ctx.plugin_name ctx.project_path relativePath

/-! ### Binary execution wrapper (src/utils/binary.ts) -/

/-- Options for `executeBinary`; `timeoutMs` is an optional parameter whose
default is 60000. -/
structure ExecuteOptions where
  binaryPath : String
  args : List String
  timeoutMs : Option Nat
  env : Option (List (String × String))

/-- Caller-facing result of `executeBinary` (camelCase fields). -/
structure ExecuteResult where
  success : Bool
  exitCode : Int
  stdout : String
  stderr : String
  deriving Repr, DecidableEq

/-- Embeds `executeBinary`: working directory is the project root from context,
timeout defaults to 60000, result fields renamed snake_case → camelCase. -/
def executeBinary (octx : Option InternalPluginContext)
    (bridge : Option TauriCore) (options : ExecuteOptions) :
    Except String ExecuteResult := do
  let ctx ← getInternalContext octx
  let core ← getTauriCore bridge
  let result ← core.execute_binary options.binaryPath options.args
    ctx.project_path (options.timeoutMs.getD 60000) options.env
  .ok { success := result.success, exitCode := result.exit_code,
        stdout := result.stdout, stderr := result.stderr }

/-! ### Cookie wrappers (src/utils/cookies.ts) -/

/-- Embeds `getPluginCookie`. -/
def getPluginCookie (octx : Option InternalPluginContext)
    (bridge : Option TauriCore) : Except String (List Cookie) := do
  let ctx ← getInternalContext octx
  let core ← getTauriCore bridge
  core.get_plugin_cookie ctx.plugin_name ctx.project_path

/-- Embeds `setPluginCookie`. -/
def setPluginCookie (octx : Option InternalPluginContext)
    (bridge : Option TauriCore) (cookies : List Cookie) : Except String Unit := do
  let ctx ← getInternalContext octx
  let core ← getTauriCore bridge
  core.set_plugin_cookie ctx.plugin_name ctx.project_path cookies

/-! ### Messaging (src/utils/messaging.ts, src/utils/logging.ts) -/

/-- Level of a log message. -/
inductive LogLevel where
  | log
  | warn
  | error
  deriving Repr, DecidableEq

/-- Tagged union of messages a plugin can send to the host; `α` is the
`unknown` payload type of the `complete` variant. -/
inductive PluginMessage (α : Type) where
  | log (level : LogLevel) (message : String)
  | progress (phase : String) (current total : Nat) (message : Option String)
  | error (error : String) (context : Option String) (fatal : Bool)
  | complete (result : α)
  deriving Repr, DecidableEq

/-- Module-level message context (current plugin and hook names). -/
structure MessageContext where
  currentPluginName : String
  currentHookName : String
  deriving Repr, DecidableEq

/-- Embeds `setMessageContext`. -/
def setMessageContext (_st : MessageContext) (pluginName hookName : String) :
    MessageContext :=
  { currentPluginName := pluginName, currentHookName := hookName }

/-- The payload of a `plugin_message` invocation. -/
structure InvokePayload (α : Type) where
  pluginName : String
  hookName : String
  message : PluginMessage α
  deriving Repr, DecidableEq

/-- Embeds `sendMessage`: no-op when the bridge is absent, otherwise a single
`plugin_message` invocation whose failure is swallowed. Returns the
overall outcome and the payload actually invoked (none when skipped);
`invokeOutcome` models the host's response to that invocation. -/
def sendMessage {α : Type} (st : MessageContext) (avail : Bool)
    (invokeOutcome : Except String Unit) (message : PluginMessage α) :
    Except String Unit × Option (InvokePayload α) :=
  if avail = false then
    (.ok (), none)
  else
    let payload : InvokePayload α :=
      { pluginName := st.currentPluginName, hookName := st.currentHookName,
        message := message }
    match invokeOutcome with
    | .ok _ => (.ok (), some payload)
    | .error _ => (.ok (), some payload)

/-- Embeds `log`. -/
def log {α : Type} (st : MessageContext) (avail : Bool)
    (invokeOutcome : Except String Unit) (message : String) :
    Except String Unit × Option (InvokePayload α) :=
  sendMessage st avail invokeOutcome (.log .log message)

/-- Embeds `warn`. -/
def warn {α : Type} (st : MessageContext) (avail : Bool)
    (invokeOutcome : Except String Unit) (message : String) :
    Except String Unit × Option (InvokePayload α) :=
  sendMessage st avail invokeOutcome (.log .warn message)

/-- Embeds `error`. -/
def error {α : Type} (st : MessageContext) (avail : Bool)
    (invokeOutcome : Except String Unit) (message : String) :
    Except String Unit × Option (InvokePayload α) :=
  sendMessage st avail invokeOutcome (.log .error message)

/-- Embeds `reportProgress`; `message` is an optional parameter. -/
def reportProgress {α : Type} (st : MessageContext) (avail : Bool)
    (invokeOutcome : Except String Unit) (phase : String) (current total : Nat)
    (message : Option String) : Except String Unit × Option (InvokePayload α) :=
  sendMessage st avail invokeOutcome (.progress phase current total message)

/-- Embeds `reportError`; `context` is an optional parameter and `fatal` is an
optional parameter defaulting to `false`. -/
def reportError {α : Type} (st : MessageContext) (avail : Bool)
    (invokeOutcome : Except String Unit) (err : String)
    (context : Option String) (fatal : Option Bool) :
    Except String Unit × Option (InvokePayload α) :=
  sendMessage st avail invokeOutcome (.error err context (fatal.getD false))

/-- Embeds `reportComplete`. -/
def reportComplete {α : Type} (st : MessageContext) (avail : Bool)
    (invokeOutcome : Except String Unit) (result : α) :
    Except String Unit × Option (InvokePayload α) :=
  sendMessage st avail invokeOutcome (.complete result)

/-! ### Mock filesystem (testing/mock-tauri.ts) -/

/-- A file stored in the mock filesystem; timestamps are clock values. -/
structure MockFile where
  content : String
  createdAt : Nat
  modifiedAt : Nat
  deriving Repr, DecidableEq

/-- In-memory filesystem: a path-keyed map of files. -/
structure MockFilesystem where
  files : SMap MockFile
  deriving Repr, DecidableEq

/-- Embeds `createMockFilesystem`. -/
def createMockFilesystem : MockFilesystem :=
  { files := [] }

/-- Embeds `getFile`. -/
def MockFilesystem.getFile (fs : MockFilesystem) (path : String) :
    Option MockFile :=
  fs.files.get? path

/-- Embeds `setFile` at clock time `now`: preserves an existing `createdAt` and
stamps `modifiedAt` with `now`. -/
def MockFilesystem.setFile (fs : MockFilesystem) (path content : String)
    (now : Nat) : MockFilesystem :=
  { files := fs.files.set path
      { content := content,
        createdAt := ((fs.files.get? path).map MockFile.createdAt).getD now,
        modifiedAt := now } }

/-- Embeds `deleteFile`. -/
def MockFilesystem.deleteFile (fs : MockFilesystem) (path : String) :
    MockFilesystem :=
  { files := fs.files.filter (fun kv => kv.1 ≠ path) }

/-- Embeds `clear`. -/
def MockFilesystem.clear (_fs : MockFilesystem) : MockFilesystem :=
  { files := [] }

/-! ### Download tracker (testing/mock-tauri.ts) -/

/-- Tracks download activity; counters are JavaScript numbers, modelled
as integers. -/
structure DownloadTracker where
  activeDownloads : Int
  maxConcurrent : Int
  completedDownloads : List String
  failedDownloads : List (String × String)
  deriving Repr, DecidableEq

/-- Embeds `createDownloadTracker`. -/
def createDownloadTracker : DownloadTracker :=
  { activeDownloads := 0, maxConcurrent := 0,
    completedDownloads := [], failedDownloads := [] }

/-- Embeds `startDownload`: increment the active count and raise the observed
maximum when exceeded. -/
def DownloadTracker.startDownload (t : DownloadTracker) (_url : String) :
    DownloadTracker :=
  let active := t.activeDownloads + 1
  { t with activeDownloads := active,
           maxConcurrent :=
             if active > t.maxConcurrent then active else t.maxConcurrent }

/-- Embeds `endDownload`: decrement the active count and bucket the URL as
completed or failed (failure message defaults via JavaScript `||`). -/
def DownloadTracker.endDownload (t : DownloadTracker) (url : String)
    (success : Bool) (err : Option String) : DownloadTracker :=
  { t with
    activeDownloads := t.activeDownloads - 1,
    completedDownloads :=
      if success then t.completedDownloads ++ [url] else t.completedDownloads,
    failedDownloads :=
      if success then t.failedDownloads
      else t.failedDownloads ++ [(url, jsOrString err "Unknown error")] }

/-- Embeds `reset`. -/
def DownloadTracker.reset (_t : DownloadTracker) : DownloadTracker :=
  { activeDownloads := 0, maxConcurrent := 0,
    completedDownloads := [], failedDownloads := [] }

/-! ### URL response registry (testing/mock-tauri.ts) -/

/-- Configuration for a mocked URL response. -/
structure MockUrlResponse where
  status : Nat
  ok : Bool
  contentType : Option String
  bodyBase64 : Option String
  bytesWritten : Option Nat
  actualPath : Option String
  delay : Option Nat
  deriving Repr, DecidableEq

/-- A registry entry: a single response or an ordered retry sequence. -/
inductive UrlEntry where
  | single (r : MockUrlResponse)
  | seq (rs : List MockUrlResponse)
  deriving Repr, DecidableEq

/-- The fixed default response for unregistered URLs: a 1x1 red PNG. -/
def defaultResponse : MockUrlResponse :=
  { status := 200, ok := true, contentType := some "image/png",
    bodyBase64 := some ("iVBORw0KGgoAAAANSUhEUgAAAAEAAAABCAYAAAAfFcSJAAAADUlE" ++
      "QVR42mNk+M9QDwADhgGAWjR9awAAAABJRU5ErkJggg=="),
    bytesWritten := some 68, actualPath := some "assets/image.png",
    delay := none }

/-- URL response registry state: registered responses and the per-URL
call counters used to step through sequences. -/
structure MockUrlConfig where
  responses : SMap UrlEntry
  callCounts : SMap Nat
  deriving Repr, DecidableEq

/-- Embeds `createMockUrlConfig`. -/
def createMockUrlConfig : MockUrlConfig :=
  { responses := [], callCounts := [] }

/-- Embeds `setResponse`: register a response (or sequence) and zero the URL's
call counter. -/
def MockUrlConfig.setResponse (cfg : MockUrlConfig) (url : String)
    (response : UrlEntry) : MockUrlConfig :=
  { responses := cfg.responses.set url response,
    callCounts := cfg.callCounts.set url 0 }

/-- Embeds `getResponse`: unregistered URLs yield the default; a sequence yields
the entry at the current counter clamped to the last index, advancing the
counter. The result is `none` exactly when an empty sequence is indexed
(the JavaScript expression is then `undefined`). -/
def MockUrlConfig.getResponse (cfg : MockUrlConfig) (url : String) :
    Option MockUrlResponse × MockUrlConfig :=
  match cfg.responses.get? url with
  | none => (some defaultResponse, cfg)
  | some (.single r) => (some r, cfg)
  | some (.seq rs) =>
      let count := (cfg.callCounts.get? url).getD 0
      (rs.get? (min count (rs.length - 1)),
        { cfg with callCounts := cfg.callCounts.set url (count + 1) })

/-- Embeds `reset`. -/
def MockUrlConfig.reset (_cfg : MockUrlConfig) : MockUrlConfig :=
  { responses := [], callCounts := [] }

/-- State of the registry after `n` successive `getResponse` calls on
`url`. -/
def getResponseN (cfg : MockUrlConfig) (url : String) : Nat → MockUrlConfig
  | 0 => cfg
  | n + 1 => ((getResponseN cfg url n).getResponse url).2

/-- The value returned by the `(n+1)`-th successive `getResponse` call on
`url` (0-indexed). -/
def nthResponse (cfg : MockUrlConfig) (url : String) (n : Nat) :
    Option MockUrlResponse :=
  ((getResponseN cfg url n).getResponse url).1

/-! ### Binary result registry (testing/mock-tauri.ts) -/

/-- Result for a mocked binary execution. -/
structure MockBinaryResult where
  success : Bool
  exitCode : Int
  stdout : String
  stderr : String
  deriving Repr, DecidableEq

/-- The fixed default result for unregistered binaries. -/
def defaultResult : MockBinaryResult :=
  { success := true, exitCode := 0, stdout := "", stderr := "" }

/-- Binary execution registry state. -/
structure MockBinaryConfig where
  results : SMap MockBinaryResult
  deriving Repr, DecidableEq

/-- Embeds `createMockBinaryConfig`. -/
def createMockBinaryConfig : MockBinaryConfig :=
  { results := [] }

/-- Embeds `setResult`. -/
def MockBinaryConfig.setResult (cfg : MockBinaryConfig) (key : String)
    (result : MockBinaryResult) : MockBinaryConfig :=
  { results := cfg.results.set key result }

/-- The exact lookup key for a binary invocation: path and args joined by
spaces, trimmed. -/
def binaryExactKey (binaryPath : String) (args : List String) : String :=
  jsTrim (binaryPath ++ " " ++ String.intercalate " " args)

/-- Embeds `getResult`: exact path+args key first, then path-only, then the fixed
default. -/
def MockBinaryConfig.getResult (cfg : MockBinaryConfig) (binaryPath : String)
    (args : List String) : MockBinaryResult :=
  match cfg.results.get? (binaryExactKey binaryPath args) with
  | some r => r
  | none =>
      match cfg.results.get? binaryPath with
      | some r => r
      | none => defaultResult

/-! ### Mock invoke cases (testing/mock-tauri.ts, setupMockTauri) -/

/-- The `read_project_file` case of the mock invoke handler. -/
def mockReadProjectFile (fs : MockFilesystem)
    (projectPath relativePath : String) : Except String String :=
  let fullPath := projectPath ++ "/" ++ relativePath
  match fs.getFile fullPath with
  | some file => .ok file.content
  | none => .error ("File not found: " ++ fullPath)

/-- The `write_project_file` case of the mock invoke handler, at clock
time `now`. -/
def mockWriteProjectFile (fs : MockFilesystem)
    (projectPath relativePath data : String) (now : Nat) : MockFilesystem :=
  fs.setFile (projectPath ++ "/" ++ relativePath) data now

/-- Host wire shape of a `download_asset` result. -/
structure DownloadResult where
  status : Nat
  ok : Bool
  content_type : Option String
  bytes_written : Nat
  actual_path : String
  deriving Repr, DecidableEq

/-- The `download_asset` case of the mock invoke handler. The filename
derivation helper (URL parsing) is passed in as `extractFilenameFromUrl`;
an artificial `delay` changes only timing, never the result or final
state, so it does not appear. A registered response with status 0 throws
"Network timeout" after recording a failed download; an `undefined`
response (empty registered sequence) makes the handler throw a TypeError
while reading `.status`, after `startDownload` but before any end. -/
def mockDownloadAsset (extractFilenameFromUrl : String → String)
    (urlConfig : MockUrlConfig) (tracker : DownloadTracker)
    (url targetDir : String) :
    Except String DownloadResult × MockUrlConfig × DownloadTracker :=
  match urlConfig.getResponse url with
  | (none, cfg1) =>
      (.error "TypeError: cannot read properties of undefined",
        cfg1, tracker.startDownload url)
  | (some response, cfg1) =>
      let tr1 := tracker.startDownload url
      if response.status = 0 then
        (.error "Network timeout", cfg1,
          tr1.endDownload url false (some "Network error"))
      else
        let actualPath :=
          jsOrString response.actualPath
            (targetDir ++ "/" ++ extractFilenameFromUrl url)
        let result : DownloadResult :=
          { status := response.status, ok := response.ok,
            content_type := jsOrNullString response.contentType,
            bytes_written := response.bytesWritten.getD 0,
            actual_path := actualPath }
        (.ok result, cfg1, tr1.endDownload url response.ok none)

/-! ### Helper lemmas -/

theorem fileExists_some_isOk (c : InternalPluginContext)
    (bridge : Option TauriCore) (p : String) :
    (fileExists (some c) bridge p).isOk = true := by
  cases h : readFile (some c) bridge p <;>
    simp [fileExists, getInternalContext, h, Except.isOk, Except.toBool,
      bind, Except.bind]

theorem fileExists_iff_readFile (octx : Option InternalPluginContext)
    (bridge : Option TauriCore) (p : String) :
    fileExists octx bridge p = .ok true ↔
      (readFile octx bridge p).isOk = true := by
  cases octx with
  | none =>
      simp [fileExists, readFile, getInternalContext, Except.isOk,
        Except.toBool, bind, Except.bind]
  | some c =>
      cases h : readFile (some c) bridge p <;>
        simp [fileExists, getInternalContext, h, Except.isOk, Except.toBool,
          bind, Except.bind]

/-! ### C1 -/

/-- C1: every context-dependent wrapper (readFile, writeFile, listFiles,
fileExists, readPluginFile, writePluginFile, listPluginFiles,
pluginFileExists, executeBinary, getPluginCookie, setPluginCookie) throws
the fixed context error when the global context is unset; that error
message contains "must be called from within a plugin hook"; and
hasContext never throws, returning false exactly when the context is
unset. -/
theorem wrappers_require_context :
    (∀ bridge p, readFile none bridge p = .error contextErrorMessage) ∧
    (∀ bridge p c, writeFile none bridge p c = .error contextErrorMessage) ∧
    (∀ bridge, listFiles none bridge = .error contextErrorMessage) ∧
    (∀ bridge p, fileExists none bridge p = .error contextErrorMessage) ∧
    (∀ bridge p, readPluginFile none bridge p = .error contextErrorMessage) ∧
    (∀ bridge p c, writePluginFile none bridge p c = .error contextErrorMessage) ∧
    (∀ bridge, listPluginFiles none bridge = .error contextErrorMessage) ∧
    (∀ bridge p, pluginFileExists none bridge p = .error contextErrorMessage) ∧
    (∀ bridge opts, executeBinary none bridge opts = .error contextErrorMessage) ∧
    (∀ bridge, getPluginCookie none bridge = .error contextErrorMessage) ∧
    (∀ bridge cs, setPluginCookie none bridge cs = .error contextErrorMessage) ∧
    (∃ pre post,
      contextErrorMessage =
        pre ++ "must be called from within a plugin hook" ++ post) ∧
    (∀ octx, hasContext octx = false ↔ octx = none) := by
  refine ⟨fun _ _ => rfl, fun _ _ _ => rfl, fun _ => rfl, fun _ _ => rfl,
    fun _ _ => rfl, fun _ _ _ => rfl, fun _ => rfl, fun _ _ => rfl,
    fun _ _ => rfl, fun _ => rfl, fun _ _ => rfl,
    ⟨"This function ",
      ". Ensure you\x27re calling this from process(), generate(), deploy(), or syndicate().",
      by decide⟩,
    fun octx => ?_⟩
  cases octx <;> simp [hasContext]

/-! ### C2 -/

/-- C2 counterexample: as stated, "fileExists never itself raises" is
false — with the global context unset, fileExists throws the context
error rather than returning false. -/
theorem fileExists_raises_without_context :
    fileExists none none "index.md" = .error contextErrorMessage ∧
      (fileExists none none "index.md").isOk = false := by
  exact ⟨rfl, rfl⟩

/-- C2 (amended): for every state and relative path, fileExists returns
true exactly when readFile on the same path in the same state succeeds;
and whenever the context is set, fileExists never raises (a failing
speculative read, including a missing bridge, is reported as false). -/
theorem fileExists_iff_readFile_succeeds :
    (∀ octx bridge p,
      fileExists octx bridge p = .ok true ↔
        (readFile octx bridge p).isOk = true) ∧
    (∀ c bridge p, (fileExists (some c) bridge p).isOk = true) := by
  exact ⟨fileExists_iff_readFile, fileExists_some_isOk⟩

/-! ### C7 -/

/-- C7: sendMessage never fails — with the bridge absent it resolves
without invoking anything, and a failing plugin_message invocation is
swallowed; consequently log, warn, error, reportProgress, reportError and
reportComplete all resolve regardless of bridge availability or the
invocation outcome. -/
theorem sendMessage_never_fails :
    (∀ (st : MessageContext) (avail : Bool) (outcome : Except String Unit)
      (msg : PluginMessage Unit), (sendMessage st avail outcome msg).1 = .ok ()) ∧
    (∀ (st : MessageContext) (outcome : Except String Unit)
      (msg : PluginMessage Unit), (sendMessage st false outcome msg).2 = none) ∧
    (∀ (st : MessageContext) (avail : Bool) (outcome : Except String Unit)
      (m : String), (log (α := Unit) st avail outcome m).1 = .ok () ∧
        (warn (α := Unit) st avail outcome m).1 = .ok () ∧
        (error (α := Unit) st avail outcome m).1 = .ok ()) ∧
    (∀ (st : MessageContext) (avail : Bool) (outcome : Except String Unit)
      (phase : String) (cur tot : Nat) (m : Option String),
      (reportProgress (α := Unit) st avail outcome phase cur tot m).1 = .ok ()) ∧
    (∀ (st : MessageContext) (avail : Bool) (outcome : Except String Unit)
      (e : String) (c : Option String) (f : Option Bool),
      (reportError (α := Unit) st avail outcome e c f).1 = .ok ()) ∧
    (∀ (st : MessageContext) (avail : Bool) (outcome : Except String Unit)
      (r : Unit), (reportComplete st avail outcome r).1 = .ok ()) := by
  have hsend : ∀ (st : MessageContext) (avail : Bool)
      (outcome : Except String Unit) (msg : PluginMessage Unit),
      (sendMessage st avail outcome msg).1 = .ok () := by
    intro st avail outcome msg
    cases avail <;> cases outcome <;> rfl
  refine ⟨hsend, fun _ _ _ => rfl,
    fun st avail outcome m => ⟨hsend _ _ _ _, hsend _ _ _ _, hsend _ _ _ _⟩,
    fun st avail outcome phase cur tot m => hsend _ _ _ _,
    fun st avail outcome e c f => hsend _ _ _ _,
    fun st avail outcome r => hsend _ _ _ _⟩

/-! ### C8 -/

/-- C8: reportError "x" with no context and no fatal argument sends an
error message with fatal false and no context field; reportError "x"
"ctx" true sends an error message with context "ctx" and fatal true. -/
theorem reportError_defaults :
    ∀ (st : MessageContext) (outcome : Except String Unit),
      (reportError (α := Unit) st true outcome "x" none none).2 =
        some { pluginName := st.currentPluginName,
               hookName := st.currentHookName,
               message := .error "x" none false } ∧
      (reportError (α := Unit) st true outcome "x" (some "ctx") (some true)).2 =
        some { pluginName := st.currentPluginName,
               hookName := st.currentHookName,
               message := .error "x" (some "ctx") true } := by
  intro st outcome
  cases outcome <;> exact ⟨rfl, rfl⟩

/-! ### URL registry lemmas -/

theorem getResponse_responses (cfg : MockUrlConfig) (url : String) :
    (cfg.getResponse url).2.responses = cfg.responses := by
  unfold MockUrlConfig.getResponse
  cases h : cfg.responses.get? url with
  | none => rfl
  | some e => cases e <;> rfl

theorem getResponse_seq_count (cfg : MockUrlConfig) (url : String)
    (rs : List MockUrlResponse) (n : Nat)
    (hresp : cfg.responses.get? url = some (.seq rs))
    (hcount : cfg.callCounts.get? url = some n) :
    (cfg.getResponse url).1 = rs.get? (min n (rs.length - 1)) ∧
      (cfg.getResponse url).2.callCounts.get? url = some (n + 1) := by
  unfold MockUrlConfig.getResponse
  rw [hresp]
  simp [hcount, SMap.get?_set_self]

theorem getResponseN_invariant (cfg : MockUrlConfig) (url : String)
    (rs : List MockUrlResponse) (n : Nat)
    (hresp : cfg.responses.get? url = some (.seq rs))
    (hcount : cfg.callCounts.get? url = some 0) :
    (getResponseN cfg url n).responses.get? url = some (.seq rs) ∧
      (getResponseN cfg url n).callCounts.get? url = some n := by
  induction n with
  | zero => exact ⟨hresp, hcount⟩
  | succ k ih =>
      have hstep := getResponse_seq_count (getResponseN cfg url k) url rs k
        ih.1 ih.2
      refine ⟨?_, hstep.2⟩
      show ((getResponseN cfg url k).getResponse url).2.responses.get? url = _
      rw [getResponse_responses]
      exact ih.1

theorem nthResponse_seq (cfg : MockUrlConfig) (url : String)
    (rs : List MockUrlResponse) (n : Nat)
    (hresp : cfg.responses.get? url = some (.seq rs))
    (hcount : cfg.callCounts.get? url = some 0) :
    nthResponse cfg url n = rs.get? (min n (rs.length - 1)) := by
  have hinv := getResponseN_invariant cfg url rs n hresp hcount
  exact (getResponse_seq_count (getResponseN cfg url n) url rs n
    hinv.1 hinv.2).1

theorem nthResponse_unregistered (cfg : MockUrlConfig) (url : String) (n : Nat)
    (h : cfg.responses.get? url = none) :
    nthResponse cfg url n = some defaultResponse ∧
      getResponseN cfg url n = cfg := by
  have hstate : ∀ m, getResponseN cfg url m = cfg := by
    intro m
    induction m with
    | zero => rfl
    | succ k ih =>
        show ((getResponseN cfg url k).getResponse url).2 = cfg
        rw [ih]
        unfold MockUrlConfig.getResponse
        rw [h]
  refine ⟨?_, hstate n⟩
  show ((getResponseN cfg url n).getResponse url).1 = some defaultResponse
  rw [hstate n]
  unfold MockUrlConfig.getResponse
  rw [h]

/-! ### C3 -/

/-- C3: after registering a response sequence for a URL, the n-th
successive getResponse call (0-indexed) returns the sequence entry at
index min n (length - 1) — so a sequence [A, B, C] yields A, B, C and
then C forever; once the sequence is exhausted every call returns the
last entry; a non-empty sequence always yields a value; and for an
unregistered URL every call returns the fixed default response. -/
theorem url_sequence_clamps_at_last (cfg : MockUrlConfig) (url : String)
    (rs : List MockUrlResponse) (n : Nat) :
    (nthResponse (cfg.setResponse url (.seq rs)) url n =
      rs.get? (min n (rs.length - 1))) ∧
    (rs.length - 1 ≤ n →
      nthResponse (cfg.setResponse url (.seq rs)) url n =
        rs.get? (rs.length - 1)) ∧
    (rs ≠ [] →
      (nthResponse (cfg.setResponse url (.seq rs)) url n).isSome = true) ∧
    (∀ (cfg2 : MockUrlConfig) (url2 : String) (m : Nat),
      cfg2.responses.get? url2 = none →
        nthResponse cfg2 url2 m = some defaultResponse) := by
  have hmain : nthResponse (cfg.setResponse url (.seq rs)) url n =
      rs.get? (min n (rs.length - 1)) := by
    apply nthResponse_seq
    · exact SMap.get?_set_self _ _ _
    · exact SMap.get?_set_self _ _ _
  refine ⟨hmain, fun hle => ?_, fun hne => ?_, fun cfg2 url2 m h =>
    (nthResponse_unregistered cfg2 url2 m h).1⟩
  · rw [hmain, Nat.min_eq_right hle]
  · rw [hmain]
    have hlt : min n (rs.length - 1) < rs.length := by
      have hpos : 0 < rs.length := List.length_pos.mpr hne
      omega
    simp [List.get?_eq_getElem?, List.getElem?_eq_getElem hlt]

/-- C3 witness: with the sequence [A, B, C] registered, call 0 yields A,
call 1 yields B, call 2 yields C, and calls 3 and 10 still yield C; an
unregistered URL yields the default response. -/
theorem url_sequence_clamps_at_last_witness :
    (nthResponse (createMockUrlConfig.setResponse "u"
        (.seq [{ defaultResponse with status := 201 },
               { defaultResponse with status := 202 },
               { defaultResponse with status := 203 }])) "u" 0 =
      some { defaultResponse with status := 201 }) ∧
    (nthResponse (createMockUrlConfig.setResponse "u"
        (.seq [{ defaultResponse with status := 201 },
               { defaultResponse with status := 202 },
               { defaultResponse with status := 203 }])) "u" 1 =
      some { defaultResponse with status := 202 }) ∧
    (nthResponse (createMockUrlConfig.setResponse "u"
        (.seq [{ defaultResponse with status := 201 },
               { defaultResponse with status := 202 },
               { defaultResponse with status := 203 }])) "u" 2 =
      some { defaultResponse with status := 203 }) ∧
    (nthResponse (createMockUrlConfig.setResponse "u"
        (.seq [{ defaultResponse with status := 201 },
               { defaultResponse with status := 202 },
               { defaultResponse with status := 203 }])) "u" 3 =
      some { defaultResponse with status := 203 }) ∧
    (nthResponse (createMockUrlConfig.setResponse "u"
        (.seq [{ defaultResponse with status := 201 },
               { defaultResponse with status := 202 },
               { defaultResponse with status := 203 }])) "u" 10 =
      some { defaultResponse with status := 203 }) ∧
    (nthResponse createMockUrlConfig "other" 5 = some defaultResponse) := by
  refine ⟨?_, ?_, ?_, ?_, ?_, ?_⟩
  · rw [(url_sequence_clamps_at_last createMockUrlConfig "u" _ 0).1]; rfl
  · rw [(url_sequence_clamps_at_last createMockUrlConfig "u" _ 1).1]; rfl
  · rw [(url_sequence_clamps_at_last createMockUrlConfig "u" _ 2).1]; rfl
  · exact (url_sequence_clamps_at_last createMockUrlConfig "u" _ 3).2.1
      (by decide)
  · exact (url_sequence_clamps_at_last createMockUrlConfig "u" _ 10).2.1
      (by decide)
  · exact (url_sequence_clamps_at_last createMockUrlConfig "x" [] 0).2.2.2
      createMockUrlConfig "other" 5 rfl

/-! ### C10 -/

/-- C10: setResponse zeroes the URL's internal call counter, so
re-registering a sequence restarts delivery at the first entry of the new
registration no matter how many calls were made before — from any prior
registry state, the first getResponse after setResponse with a sequence
returns that sequence's head. -/
theorem setResponse_resets_counter (cfg : MockUrlConfig) (url : String) :
    (∀ e : UrlEntry,
      (cfg.setResponse url e).callCounts.get? url = some 0) ∧
    (∀ rs : List MockUrlResponse,
      nthResponse (cfg.setResponse url (.seq rs)) url 0 = rs.get? 0) := by
  refine ⟨fun e => SMap.get?_set_self _ _ _, fun rs => ?_⟩
  have h := nthResponse_seq (cfg.setResponse url (.seq rs)) url rs 0
    (SMap.get?_set_self _ _ _) (SMap.get?_set_self _ _ _)
  rw [h]
  cases rs with
  | nil => rfl
  | cons a tl => simp

/-! ### C4 -/

/-- C4: when the response the registry yields for a URL has status
exactly 0, the mock download_asset command throws "Network timeout"
(so downloadAsset rejects) instead of returning a result, and the
download tracker records that URL as a failed download (appended with
message "Network error"); the completed bucket is untouched and the
active count is back where it started. -/
theorem download_asset_status_zero (f : String → String)
    (cfg : MockUrlConfig) (tr : DownloadTracker) (url dir : String)
    (r : MockUrlResponse) (hr : (cfg.getResponse url).1 = some r)
    (h0 : r.status = 0) :
    (mockDownloadAsset f cfg tr url dir).1 = .error "Network timeout" ∧
    (mockDownloadAsset f cfg tr url dir).2.2.failedDownloads =
      tr.failedDownloads ++ [(url, "Network error")] ∧
    (mockDownloadAsset f cfg tr url dir).2.2.completedDownloads =
      tr.completedDownloads ∧
    (mockDownloadAsset f cfg tr url dir).2.2.activeDownloads =
      tr.activeDownloads := by
  have hpair : cfg.getResponse url = (some r, (cfg.getResponse url).2) := by
    rw [← hr]
  rw [mockDownloadAsset, hpair]
  simp only [h0, if_pos rfl]
  refine ⟨rfl, ?_, ?_, ?_⟩ <;>
    simp [DownloadTracker.endDownload, DownloadTracker.startDownload,
      jsOrString]

/-- C4 witness: with a single status-0 response registered for "u", the
download_asset command on a fresh tracker errors and the tracker records
the failure. -/
theorem download_asset_status_zero_witness :
    (mockDownloadAsset (fun _ => "f.png")
        (createMockUrlConfig.setResponse "u"
          (.single { defaultResponse with status := 0 }))
        createDownloadTracker "u" "assets").1 = .error "Network timeout" ∧
    (mockDownloadAsset (fun _ => "f.png")
        (createMockUrlConfig.setResponse "u"
          (.single { defaultResponse with status := 0 }))
        createDownloadTracker "u" "assets").2.2.failedDownloads =
      [("u", "Network error")] := by
  have h := download_asset_status_zero (fun _ => "f.png")
    (createMockUrlConfig.setResponse "u"
      (.single { defaultResponse with status := 0 }))
    createDownloadTracker "u" "assets"
    { defaultResponse with status := 0 } rfl rfl
  exact ⟨h.1, h.2.1⟩

/-! ### C5 -/

/-- C5: the mock binary-result lookup returns the result registered under
the exact trimmed "path args-joined-by-spaces" key when present, else the
result registered under the path alone when present, else the fixed
default result (success true, exit code 0, empty stdout and stderr), in
exactly that precedence order. -/
theorem binary_lookup_precedence (cfg : MockBinaryConfig)
    (binaryPath : String) (args : List String) :
    (∀ r, cfg.results.get? (binaryExactKey binaryPath args) = some r →
      cfg.getResult binaryPath args = r) ∧
    (cfg.results.get? (binaryExactKey binaryPath args) = none →
      ∀ r, cfg.results.get? binaryPath = some r →
        cfg.getResult binaryPath args = r) ∧
    (cfg.results.get? (binaryExactKey binaryPath args) = none →
      cfg.results.get? binaryPath = none →
        cfg.getResult binaryPath args = defaultResult) ∧
    defaultResult =
      { success := true, exitCode := 0, stdout := "", stderr := "" } := by
  refine ⟨fun r h => ?_, fun h1 r h2 => ?_, fun h1 h2 => ?_, rfl⟩
  · rw [MockBinaryConfig.getResult, h]
  · rw [MockBinaryConfig.getResult, h1, h2]
  · rw [MockBinaryConfig.getResult, h1, h2]

/-- C5 witness: with results registered under both "git status" and
"git", the lookup for ("git", ["status"]) takes the exact key, the lookup
for ("git", ["log"]) falls back to the path-only key, and the lookup for
("npm", []) yields the fixed default. -/
theorem binary_lookup_precedence_witness :
    ((createMockBinaryConfig.setResult "git status"
        { defaultResult with stdout := "exact" }).setResult "git"
        { defaultResult with stdout := "pathonly" }).getResult
      "git" ["status"] = { defaultResult with stdout := "exact" } ∧
    ((createMockBinaryConfig.setResult "git status"
        { defaultResult with stdout := "exact" }).setResult "git"
        { defaultResult with stdout := "pathonly" }).getResult
      "git" ["log"] = { defaultResult with stdout := "pathonly" } ∧
    createMockBinaryConfig.getResult "npm" [] =
      { success := true, exitCode := 0, stdout := "", stderr := "" } := by
  refine ⟨?_, ?_, ?_⟩
  · exact (binary_lookup_precedence _ "git" ["status"]).1
      { defaultResult with stdout := "exact" } (by decide)
  · exact (binary_lookup_precedence _ "git" ["log"]).2.1 (by decide)
      { defaultResult with stdout := "pathonly" } (by decide)
  · exact ((binary_lookup_precedence createMockBinaryConfig "npm" []).2.2.1
      (by decide) (by decide)).trans
      ((binary_lookup_precedence createMockBinaryConfig "npm" []).2.2.2)

/-! ### C6 -/

/-- C6: in the mock filesystem, writing a project file and then reading
it back yields exactly the written content; overwriting an existing path
keeps the stored createdAt equal to the original creation time while
setting modifiedAt to the new clock value; and across two writes to the
same path at clock times t1 < t2 the stored modifiedAt strictly
advances while createdAt stays fixed. -/
theorem mock_fs_write_read_roundtrip (fs : MockFilesystem)
    (pp rp c : String) (now : Nat) :
    (mockReadProjectFile (mockWriteProjectFile fs pp rp c now) pp rp =
      .ok c) ∧
    (∀ f0, fs.getFile (pp ++ "/" ++ rp) = some f0 →
      (mockWriteProjectFile fs pp rp c now).getFile (pp ++ "/" ++ rp) =
        some { content := c, createdAt := f0.createdAt, modifiedAt := now }) ∧
    (∀ (t1 t2 : Nat) (c1 c2 : String), t1 < t2 →
      ∃ g1 g2,
        (mockWriteProjectFile fs pp rp c1 t1).getFile (pp ++ "/" ++ rp) =
          some g1 ∧
        (mockWriteProjectFile (mockWriteProjectFile fs pp rp c1 t1)
            pp rp c2 t2).getFile (pp ++ "/" ++ rp) = some g2 ∧
        g2.createdAt = g1.createdAt ∧ g1.modifiedAt < g2.modifiedAt) := by
  have hget : ∀ (fs' : MockFilesystem) (c' : String) (t : Nat),
      (mockWriteProjectFile fs' pp rp c' t).getFile (pp ++ "/" ++ rp) =
        some { content := c',
               createdAt := ((fs'.files.get? (pp ++ "/" ++ rp)).map
                 MockFile.createdAt).getD t,
               modifiedAt := t } := by
    intro fs' c' t
    exact SMap.get?_set_self _ _ _
  refine ⟨?_, fun f0 h0 => ?_, fun t1 t2 c1 c2 hlt => ?_⟩
  · rw [mockReadProjectFile]
    rw [hget fs c now]
  · rw [hget fs c now]
    simp [MockFilesystem.getFile] at h0
    rw [h0]
    rfl
  · have h1 : (mockWriteProjectFile fs pp rp c1 t1).getFile (pp ++ "/" ++ rp) =
        some { content := c1,
               createdAt := ((fs.files.get? (pp ++ "/" ++ rp)).map
                 MockFile.createdAt).getD t1,
               modifiedAt := t1 } := hget fs c1 t1
    have h2 : (mockWriteProjectFile (mockWriteProjectFile fs pp rp c1 t1)
          pp rp c2 t2).getFile (pp ++ "/" ++ rp) =
        some { content := c2,
               createdAt := ((fs.files.get? (pp ++ "/" ++ rp)).map
                 MockFile.createdAt).getD t1,
               modifiedAt := t2 } := by
      have hstep := hget (mockWriteProjectFile fs pp rp c1 t1) c2 t2
      have h1' : (mockWriteProjectFile fs pp rp c1 t1).files.get?
          (pp ++ "/" ++ rp) =
          some { content := c1,
                 createdAt := ((fs.files.get? (pp ++ "/" ++ rp)).map
                   MockFile.createdAt).getD t1,
                 modifiedAt := t1 } := h1
      rw [h1'] at hstep
      simpa using hstep
    exact ⟨_, _, h1, h2, rfl, hlt⟩

/-- C6 witness: writing "a" at time 1 then "b" at time 3 to the same path
reads back "b", keeps createdAt at 1, and advances modifiedAt from 1 to
3. -/
theorem mock_fs_write_read_roundtrip_witness :
    (mockReadProjectFile
      (mockWriteProjectFile createMockFilesystem "/p" "a.md" "hello" 1)
      "/p" "a.md" = .ok "hello") ∧
    (∃ g1 g2,
      (mockWriteProjectFile createMockFilesystem "/p" "a.md" "a" 1).getFile
        ("/p" ++ "/" ++ "a.md") = some g1 ∧
      (mockWriteProjectFile
        (mockWriteProjectFile createMockFilesystem "/p" "a.md" "a" 1)
        "/p" "a.md" "b" 3).getFile ("/p" ++ "/" ++ "a.md") = some g2 ∧
      g2.createdAt = g1.createdAt ∧ g1.modifiedAt < g2.modifiedAt) := by
  refine ⟨(mock_fs_write_read_roundtrip createMockFilesystem
    "/p" "a.md" "hello" 1).1, ?_⟩
  exact (mock_fs_write_read_roundtrip createMockFilesystem
    "/p" "a.md" "x" 0).2.2 1 3 "a" "b" (by decide)

/-! ### Download tracker lemmas -/

/-- Fold of startDownload over a list of URLs. -/
def startAll (t : DownloadTracker) (urls : List String) : DownloadTracker :=
  urls.foldl (fun acc u => acc.startDownload u) t

/-- Fold of endDownload over a list of (url, success, error) triples. -/
def endAll (t : DownloadTracker)
    (ends : List (String × Bool × Option String)) : DownloadTracker :=
  ends.foldl (fun acc e => acc.endDownload e.1 e.2.1 e.2.2) t

theorem startAll_active (urls : List String) (t : DownloadTracker) :
    (startAll t urls).activeDownloads = t.activeDownloads + urls.length := by
  induction urls generalizing t with
  | nil => simp [startAll]
  | cons u rest ih =>
      show (startAll (t.startDownload u) rest).activeDownloads = _
      rw [ih]
      simp [DownloadTracker.startDownload]
      omega

theorem startAll_max (urls : List String) (t : DownloadTracker)
    (h : t.activeDownloads ≤ t.maxConcurrent) :
    (startAll t urls).maxConcurrent =
      max t.maxConcurrent (t.activeDownloads + urls.length) := by
  induction urls generalizing t with
  | nil => simp [startAll]; omega
  | cons u rest ih =>
      show (startAll (t.startDownload u) rest).maxConcurrent = _
      have hstep : (t.startDownload u).maxConcurrent =
          max t.maxConcurrent (t.activeDownloads + 1) := by
        simp [DownloadTracker.startDownload]
        omega
      have hact : (t.startDownload u).activeDownloads =
          t.activeDownloads + 1 := rfl
      rw [ih (t.startDownload u) (by rw [hstep, hact]; omega)]
      rw [hstep, hact]
      simp
      omega

theorem endAll_active (ends : List (String × Bool × Option String))
    (t : DownloadTracker) :
    (endAll t ends).activeDownloads = t.activeDownloads - ends.length := by
  induction ends generalizing t with
  | nil => simp [endAll]
  | cons e rest ih =>
      show (endAll (t.endDownload e.1 e.2.1 e.2.2) rest).activeDownloads = _
      rw [ih]
      simp [DownloadTracker.endDownload]
      omega

theorem endAll_max (ends : List (String × Bool × Option String))
    (t : DownloadTracker) :
    (endAll t ends).maxConcurrent = t.maxConcurrent := by
  induction ends generalizing t with
  | nil => rfl
  | cons e rest ih =>
      show (endAll (t.endDownload e.1 e.2.1 e.2.2) rest).maxConcurrent = _
      rw [ih]
      rfl

/-! ### C9 -/

/-- C9: starting N downloads on a fresh tracker with no intervening ends
leaves activeDownloads equal to N and maxConcurrent at least N; ending
all of them brings activeDownloads back to 0 while maxConcurrent keeps
its historical maximum — endDownload never changes maxConcurrent, which
only reset clears back to 0. -/
theorem tracker_concurrency (urls : List String)
    (ends : List (String × Bool × Option String))
    (hlen : ends.length = urls.length) :
    (startAll createDownloadTracker urls).activeDownloads = urls.length ∧
    (urls.length : Int) ≤ (startAll createDownloadTracker urls).maxConcurrent ∧
    (endAll (startAll createDownloadTracker urls) ends).activeDownloads = 0 ∧
    (endAll (startAll createDownloadTracker urls) ends).maxConcurrent =
      (startAll createDownloadTracker urls).maxConcurrent ∧
    (∀ (t : DownloadTracker) (u : String) (s : Bool) (e : Option String),
      (t.endDownload u s e).maxConcurrent = t.maxConcurrent) ∧
    (∀ t : DownloadTracker, t.reset.maxConcurrent = 0) := by
  have hact := startAll_active urls createDownloadTracker
  have hmax := startAll_max urls createDownloadTracker (by simp [createDownloadTracker])
  have h0 : createDownloadTracker.activeDownloads = 0 := rfl
  have h0m : createDownloadTracker.maxConcurrent = 0 := rfl
  refine ⟨by rw [hact, h0]; omega, ?_, ?_, endAll_max ends _,
    fun t u s e => rfl, fun t => rfl⟩
  · rw [hmax, h0, h0m]; omega
  · rw [endAll_active, hact, h0, hlen]; omega

/-- C9 witness: starting "a", "b", "c" on a fresh tracker gives 3 active
and maxConcurrent at least 3; ending all three returns active to 0 with
maxConcurrent retained. -/
theorem tracker_concurrency_witness :
    (startAll createDownloadTracker ["a", "b", "c"]).activeDownloads = 3 ∧
    (3 : Int) ≤ (startAll createDownloadTracker ["a", "b", "c"]).maxConcurrent ∧
    (endAll (startAll createDownloadTracker ["a", "b", "c"])
      [("a", true, none), ("b", true, none), ("c", false, some "boom")]
      ).activeDownloads = 0 ∧
    (endAll (startAll createDownloadTracker ["a", "b", "c"])
      [("a", true, none), ("b", true, none), ("c", false, some "boom")]
      ).maxConcurrent =
      (startAll createDownloadTracker ["a", "b", "c"]).maxConcurrent := by
  have h := tracker_concurrency ["a", "b", "c"]
    [("a", true, none), ("b", true, none), ("c", false, some "boom")] rfl
  exact ⟨by simpa using h.1, by simpa using h.2.1, h.2.2.1, h.2.2.2.1⟩

end Moss
